import Mathlib

/-!
Verification of the metabolic diet-formulation engine (`src/calculators.ts`).

The engine is a pure function from `CalculationInputs` to `CalculationOutputs`:
it resolves per-nutrient daily targets from a guideline table, sizes up to
three formula roles (standard, special, modular) by a three-stage greedy
algorithm, and classifies the delivered amount of each nutrient against its
guideline band.  Numbers are modelled by `ℚ`; the sparse JavaScript records
(`Record<string, number | undefined>`) are modelled by association lists; the
JavaScript string operations used by the engine (`split('+')`, `trim`,
`includes('+')`, `length`) are modelled over `String.data` character lists.
-/

namespace Metabolic

/-- Sparse value table, modelling `Record<string, number | undefined>`. -/
abbrev ValueTable := List (String × ℚ)

/-- Model of `values[key]` on a sparse record: first binding of the key, if any. -/
def tableLookup {α : Type} (values : List (String × α)) (key : String) : Option α :=
  match values with
  | [] => none
  | (k, v) :: rest => if k = key then some v else tableLookup rest key

/-- JavaScript `s.split(sep)` for a single-character separator, over char lists. -/
def charSplit (sep : Char) : List Char → List (List Char)
  | [] => [[]]
  | c :: rest =>
    let r := charSplit sep rest
    if c = sep then [] :: r
    else
      match r with
      | [] => [[c]]
      | g :: gs => (c :: g) :: gs

/-- JavaScript `s.trim()` over char lists (whitespace stripped from both ends). -/
def charTrim (s : List Char) : List Char :=
  ((s.dropWhile Char.isWhitespace).reverse.dropWhile Char.isWhitespace).reverse

/-- JavaScript `key.includes('+')`. -/
def containsPlus (key : String) : Bool :=
  key.data.contains '+'

/-- Model of `key.split('+').map((part) => part.trim())`. -/
def splitTrim (key : String) : List String :=
  (charSplit '+' key.data).map (fun cs => String.mk (charTrim cs))

/-- JavaScript string truthiness / `part.length > 0`: the part is nonempty. -/
def strNonempty (s : String) : Bool :=
  !s.data.isEmpty

/-- Model of `key.split('+').map(trim).filter(Boolean)` — the nonempty trimmed parts. -/
def splitParts (key : String) : List String :=
  (splitTrim key).filter strNonempty

/-- The summation loop of `resolveCompositeValue`: add up the parts' values,
returning `undefined` as soon as one part has no numeric entry. -/
def sumLookups (values : ValueTable) : List String → Option ℚ
  | [] => some 0
  | p :: ps =>
    match tableLookup values p with
    | none => none
    | some v => (sumLookups values ps).map (fun t => v + t)

/-- Model of `resolveCompositeValue` from `src/calculators.ts`: a direct entry wins;
otherwise a key containing `'+'` is split, trimmed, filtered of empty parts,
and the parts' values are summed iff all are present. -/
def resolveCompositeValue (key : String) (values : ValueTable) : Option ℚ :=
  match tableLookup values key with
  | some direct => some direct
  | none =>
    if containsPlus key then sumLookups values (splitParts key)
    else none

/-- Model of `resolveUnitForComposite` from `src/calculators.ts`. -/
def resolveUnitForComposite (key : String) (unitMap : List (String × String)) : String :=
  let direct := (tableLookup unitMap key).getD ""
  if strNonempty direct then direct
  else if containsPlus key then
    match (splitTrim key).filter strNonempty with
    | [] => "day"
    | firstPart :: _ =>
      let v := (tableLookup unitMap firstPart).getD ""
      if strNonempty v then v else "day"
  else "day"

/-- The set `NON_AMINO_NUTRIENTS` from `src/calculators.ts`. -/
def NON_AMINO_NUTRIENTS : List String :=
  ["Energy", "Protein", "Fluid", "Fat", "Carbohydrate", "LinoleicAcid", "LinolenicAcid"]

/-- Model of `isAminoAcidNutrient` from `src/calculators.ts`. -/
def isAminoAcidNutrient (nutrient : String) : Bool :=
  if NON_AMINO_NUTRIENTS.contains nutrient then false
  else if !containsPlus nutrient then true
  else (splitTrim nutrient).all (fun p => strNonempty p && !NON_AMINO_NUTRIENTS.contains p)

/-- Model of `NutrientUnit` from `src/types.ts`. -/
inductive NutrientUnit where
  | mgKg | mgDay | gKg | gDay | kcalKg | kcalDay | mLKg | mLDay | pctEnergy
deriving DecidableEq, Repr

/-- Model of `DailyUnit` from `src/calculators.ts`. -/
inductive DailyUnit where
  | mgDay | gDay | kcalDay | mLDay | pctEnergy
deriving DecidableEq, Repr

/-- Model of `unit.endsWith('/kg')`. -/
def NutrientUnit.isPerKg : NutrientUnit → Bool
  | .mgKg | .gKg | .kcalKg | .mLKg => true
  | _ => false

/-- Model of `toDailyUnit` from `src/calculators.ts`. -/
def toDailyUnit : NutrientUnit → DailyUnit
  | .mgKg | .mgDay => .mgDay
  | .gKg | .gDay => .gDay
  | .kcalKg | .kcalDay => .kcalDay
  | .mLKg | .mLDay => .mLDay
  | .pctEnergy => .pctEnergy

/-- The canonical unit strings, for the unit table fed to `resolveUnitForComposite`. -/
def DailyUnit.str : DailyUnit → String
  | .mgDay => "mg/day"
  | .gDay => "g/day"
  | .kcalDay => "kcal/day"
  | .mLDay => "mL/day"
  | .pctEnergy => "%energy"

/-- Model of `toDailyValue` from `src/calculators.ts`. -/
def toDailyValue (value : ℚ) (unit : NutrientUnit) (weightKg : ℚ) : ℚ :=
  if unit.isPerKg then value * weightKg else value

/-- Model of `TargetMode` from `src/types.ts`. -/
inductive TargetMode where
  | MIN | MID | MAX
deriving DecidableEq, Repr

/-- Model of `NutrientRange` from `src/types.ts` (`minOnly` absent modelled as `false`). -/
structure NutrientRange where
  min : ℚ
  max : ℚ
  unit : NutrientUnit
  mid : Option ℚ := none
  minOnly : Bool := false
deriving DecidableEq, Repr

/-- Model of `pickTarget` from `src/calculators.ts`. -/
def pickTarget (range : NutrientRange) (mode : TargetMode) : ℚ :=
  if range.minOnly then range.min
  else
    match mode with
    | .MIN => range.min
    | .MAX => range.max
    | .MID =>
      match range.mid with
      | some m => m
      | none => (range.min + range.max) / 2

/-- Model of `EPSILON` from `src/calculators.ts`. -/
def EPSILON : ℚ := 1 / 1000000

/-- The `'100g' | '100mL'` basis of a formula. -/
inductive Basis where
  | g100 | mL100
deriving DecidableEq, Repr

/-- Model of `FormulaReference` from `src/types.ts`. -/
structure FormulaReference where
  name : String
  basis : Basis
  values : ValueTable
deriving DecidableEq, Repr

/-- Model of `formulaNutrient` from `src/calculators.ts`. -/
def formulaNutrient (formula : FormulaReference) (nutrient : String) : Option ℚ :=
  resolveCompositeValue nutrient formula.values

/-- Model of `AgeGuideline` from `src/types.ts`; `nutrients` keeps `Object.entries` order. -/
structure AgeGuideline where
  ageLabel : String
  nutrients : List (String × NutrientRange)
deriving DecidableEq, Repr

/-- The three formula roles. -/
inductive FormulaRole where
  | standard | special | modular
deriving DecidableEq, Repr

/-- Model of `CompletionNutrient` from `src/calculators.ts`. -/
inductive CompletionNutrient where
  | Protein | Energy | Carbohydrate | Fat
deriving DecidableEq, Repr

/-- The nutrient key string of a completion nutrient. -/
def CompletionNutrient.key : CompletionNutrient → String
  | .Protein => "Protein"
  | .Energy => "Energy"
  | .Carbohydrate => "Carbohydrate"
  | .Fat => "Fat"

/-- Model of `FormulaContribution` from `src/types.ts`. -/
structure FormulaContribution where
  role : FormulaRole
  formulaName : String
  basis : Basis
  amount : ℚ
  amountUnit : DailyUnit
  kcal : ℚ
  protein : ℚ
  primaryLimiterDelivered : Option ℚ
  scoops : Option ℚ
  waterMl : Option ℚ
  perFeedAmount : ℚ
  perFeedScoops : Option ℚ
  perFeedWaterMl : Option ℚ
deriving DecidableEq, Repr

/-- Model of `deliveredForCompletionNutrient` from `src/calculators.ts`. -/
def deliveredForCompletionNutrient (nutrient : CompletionNutrient)
    (planItems : List FormulaContribution)
    (formulaByRole : FormulaRole → Option FormulaReference) : ℚ :=
  match nutrient with
  | .Energy => planItems.foldl (fun sum item => sum + item.kcal) 0
  | .Protein => planItems.foldl (fun sum item => sum + item.protein) 0
  | _ =>
    planItems.foldl (fun sum item =>
      match formulaByRole item.role with
      | none => sum
      | some formula =>
        match formulaNutrient formula nutrient.key with
        | none => sum
        | some per100 => sum + per100 * item.amount / 100) 0

/-- One entry of the `completionTargets` array built in `calculateDiet`. -/
structure CompletionTarget where
  nutrient : CompletionNutrient
  target : Option ℚ
  label : String
deriving DecidableEq, Repr

/-- One step of the `completionTargets.forEach` loop inside
`requiredAmountForFormulaCompletion`; the accumulator carries the running
`requiredAmount` and the notes pushed so far. -/
def completionStep (formula : FormulaReference) (formulaLabel : String)
    (planItems : List FormulaContribution)
    (formulaByRole : FormulaRole → Option FormulaReference)
    (acc : ℚ × List String) (ct : CompletionTarget) : ℚ × List String :=
  match ct.target with
  | none => acc
  | some target =>
    let delivered := deliveredForCompletionNutrient ct.nutrient planItems formulaByRole
    let deficit := max 0 (target - delivered)
    if deficit ≤ EPSILON then acc
    else
      let note := formulaLabel ++ " has zero " ++ ct.label ++ ", so " ++ ct.label
        ++ " deficit remains."
      match formulaNutrient formula ct.nutrient.key with
      | some per100 =>
        if EPSILON < per100 then
          let needed := deficit * 100 / per100
          (if acc.1 < needed then needed else acc.1, acc.2)
        else (acc.1, acc.2 ++ [note])
      | none => (acc.1, acc.2 ++ [note])

/-- Model of `requiredAmountForFormulaCompletion` from `src/calculators.ts`; returns the
required amount together with the notes the loop pushed. -/
def requiredAmountForFormulaCompletion (formula : FormulaReference)
    (formulaLabel : String) (completionTargets : List CompletionTarget)
    (planItems : List FormulaContribution)
    (formulaByRole : FormulaRole → Option FormulaReference) : ℚ × List String :=
  completionTargets.foldl (completionStep formula formulaLabel planItems formulaByRole) (0, [])

/-- Model of `hasRemainingCompletionDeficit` from `src/calculators.ts`. -/
def hasRemainingCompletionDeficit (completionTargets : List CompletionTarget)
    (planItems : List FormulaContribution)
    (formulaByRole : FormulaRole → Option FormulaReference) : Bool :=
  completionTargets.any (fun ct =>
    match ct.target with
    | none => false
    | some target =>
      decide (EPSILON < target - deliveredForCompletionNutrient ct.nutrient planItems formulaByRole))

/-- Model of `makeContribution` from `src/calculators.ts`. -/
def makeContribution (role : FormulaRole) (formula : FormulaReference) (amount : ℚ)
    (feedsPerDay : ℚ) (scoopSizeG : ℚ) (waterPerScoopMl : ℚ)
    (primaryLimiter : Option String) : FormulaContribution :=
  let amountUnit := match formula.basis with
    | .g100 => DailyUnit.gDay
    | .mL100 => DailyUnit.mLDay
  let kcal := (tableLookup formula.values "Energy").getD 0 * amount / 100
  let protein := (tableLookup formula.values "Protein").getD 0 * amount / 100
  let primaryLimiterPer100 : Option ℚ :=
    match primaryLimiter with
    | some pl => if strNonempty pl then formulaNutrient formula pl else none
    | none => none
  let primaryLimiterDelivered := primaryLimiterPer100.map (fun p => p * amount / 100)
  let hasScoops : Bool := (formula.basis = Basis.g100 : Bool) && decide (0 < scoopSizeG)
  let scoopsV := amount / scoopSizeG
  let waterV := scoopsV * waterPerScoopMl
  { role := role
    formulaName := formula.name
    basis := formula.basis
    amount := amount
    amountUnit := amountUnit
    kcal := kcal
    protein := protein
    primaryLimiterDelivered := primaryLimiterDelivered
    scoops := if hasScoops then some scoopsV else none
    waterMl := if hasScoops then some waterV else none
    perFeedAmount := amount / feedsPerDay
    perFeedScoops := if hasScoops then some (scoopsV / feedsPerDay) else none
    perFeedWaterMl := if hasScoops then some (waterV / feedsPerDay) else none }

/-- Model of `CalculationInputs` from `src/types.ts`, with the two constant-table
lookups `GUIDELINES[inputs.disease]` and
`DISEASE_METADATA[inputs.disease].primaryLimiter` inlined as fields
(the engine only ever reads those two values of the disease). -/
structure CalculationInputs where
  weightKg : ℚ
  ageGroupIndex : ℤ
  targetMode : TargetMode
  feedsPerDay : ℚ
  scoopSizeG : ℚ
  waterPerScoopMl : ℚ
  standard : FormulaReference
  special : Option FormulaReference
  modular : Option FormulaReference
  guidelines : List AgeGuideline
  primaryLimiter : Option String
deriving DecidableEq, Repr

/-- One resolved guideline row of `calculateDiet`. -/
structure ResolvedRow where
  nutrient : String
  source : NutrientRange
  totalMin : ℚ
  totalMax : ℚ
  totalTarget : ℚ
  totalUnit : DailyUnit
deriving DecidableEq, Repr

/-- Balance status of a nutrient. -/
inductive BalanceStatus where
  | LOW | NORMAL | HIGH
deriving DecidableEq, Repr

/-- Model of `NutrientBalance` from `src/types.ts`. -/
structure NutrientBalance where
  nutrient : String
  unit : DailyUnit
  min : ℚ
  max : ℚ
  target : ℚ
  delivered : ℚ
  deficitToTarget : ℚ
  excessToTarget : ℚ
  status : BalanceStatus
deriving DecidableEq, Repr

/-- The `highlights` part of `CalculationOutputs`. -/
structure Highlights where
  targetEnergy : Option ℚ
  targetProtein : Option ℚ
  targetFluid : Option ℚ
  primaryLimit : Option (String × ℚ × String)
deriving DecidableEq, Repr

/-- The `totals` part of the formula plan. -/
structure PlanTotals where
  kcal : ℚ
  protein : ℚ
  primaryLimiter : Option ℚ
  powderG : ℚ
  scoops : ℚ
  waterMl : ℚ
  readyToFeedMl : ℚ
  finalVolumeMl : ℚ
  scoopsPerFeed : ℚ
  volumePerFeedMl : ℚ
deriving DecidableEq, Repr

/-- The `deficits` part of the formula plan. -/
structure PlanDeficits where
  protein : ℚ
  energy : ℚ
deriving DecidableEq, Repr

/-- The `formulaPlan` part of `CalculationOutputs`. -/
structure FormulaPlan where
  primaryLimiter : Option String
  notes : List String
  items : List FormulaContribution
  nutrientBalances : List NutrientBalance
  totals : PlanTotals
  deficits : PlanDeficits
deriving DecidableEq, Repr

/-- Model of `CalculationOutputs` from `src/types.ts`. -/
structure CalculationOutputs where
  rows : List ResolvedRow
  highlights : Highlights
  formulaPlan : FormulaPlan
deriving DecidableEq, Repr

/-- Model of `safeWeight` clamp at the top of `calculateDiet`
(`Math.max(0, inputs.weightKg || 0)`; on `ℚ` the `|| 0` is the identity). -/
def safeWeightOf (i : CalculationInputs) : ℚ := max 0 i.weightKg

/-- Model of `safeFeeds` clamp: `Math.max(1, Math.floor(inputs.feedsPerDay || 1))`. -/
def safeFeedsOf (i : CalculationInputs) : ℤ :=
  max 1 (Rat.floor (if i.feedsPerDay = 0 then 1 else i.feedsPerDay))

/-- Model of `safeScoopSizeG` clamp: `Math.max(0.1, inputs.scoopSizeG || 5)`. -/
def safeScoopOf (i : CalculationInputs) : ℚ :=
  max (1 / 10) (if i.scoopSizeG = 0 then 5 else i.scoopSizeG)

/-- Model of `safeWaterPerScoopMl` clamp: `Math.max(0, inputs.waterPerScoopMl || 0)`. -/
def safeWaterOf (i : CalculationInputs) : ℚ := max 0 i.waterPerScoopMl

/-- Model of `safeAgeIndex` clamp:
`Math.min(Math.max(0, inputs.ageGroupIndex), diseaseGuides.length - 1)`. -/
def safeAgeIndexOf (i : CalculationInputs) : ℤ :=
  min (max 0 i.ageGroupIndex) ((i.guidelines.length : ℤ) - 1)

/-- The selected age guideline `diseaseGuides[safeAgeIndex]`. -/
def ageGuideOf (i : CalculationInputs) : AgeGuideline :=
  i.guidelines.getD (safeAgeIndexOf i).toNat ⟨"", []⟩

/-- Resolution of one guideline entry into daily terms. -/
def resolveRow (weight : ℚ) (mode : TargetMode) (entry : String × NutrientRange) : ResolvedRow :=
  { nutrient := entry.1
    source := entry.2
    totalMin := toDailyValue entry.2.min entry.2.unit weight
    totalMax := toDailyValue entry.2.max entry.2.unit weight
    totalTarget := toDailyValue (pickTarget entry.2 mode) entry.2.unit weight
    totalUnit := toDailyUnit entry.2.unit }

/-- The `rows` array of `calculateDiet`. -/
def rowsOf (i : CalculationInputs) : List ResolvedRow :=
  (ageGuideOf i).nutrients.map (resolveRow (safeWeightOf i) i.targetMode)

/-- The `targetByNutrient` record. -/
def targetTableOf (i : CalculationInputs) : ValueTable :=
  (rowsOf i).map (fun r => (r.nutrient, r.totalTarget))

/-- The `unitByNutrient` record. -/
def unitTableOf (i : CalculationInputs) : List (String × String) :=
  (rowsOf i).map (fun r => (r.nutrient, r.totalUnit.str))

/-- Model of `targetByNutrient[key]`. -/
def targetOf (i : CalculationInputs) (key : String) : Option ℚ :=
  tableLookup (targetTableOf i) key

/-- The `completionTargets` array of `calculateDiet`. -/
def completionTargetsOf (i : CalculationInputs) : List CompletionTarget :=
  [ ⟨.Protein, targetOf i "Protein", "protein"⟩,
    ⟨.Energy, targetOf i "Energy", "calories"⟩,
    ⟨.Carbohydrate, targetOf i "Carbohydrate", "carbohydrate"⟩,
    ⟨.Fat, targetOf i "Fat", "fat"⟩ ]

/-- The `formulaByRole` record of `calculateDiet`. -/
def formulaByRoleOf (i : CalculationInputs) (r : FormulaRole) : Option FormulaReference :=
  match r with
  | .standard => some i.standard
  | .special => i.special
  | .modular => i.modular

/-- One step of the stage-1 `rows.forEach` sizing loop; the accumulator is
`(maxStandardFromElements, limitingNutrientForStandard)` with `none` standing
for the initial `Number.POSITIVE_INFINITY` / `null`. -/
def standardSizingStep (std : FormulaReference) (acc : Option ℚ × Option String)
    (row : ResolvedRow) : Option ℚ × Option String :=
  if !isAminoAcidNutrient row.nutrient || row.source.minOnly then acc
  else
    match formulaNutrient std row.nutrient with
    | none => acc
    | some per100 =>
      if per100 ≤ EPSILON then acc
      else
        let cand := row.totalMax * 100 / per100
        match acc.1 with
        | none => (some cand, some row.nutrient)
        | some cur => if cand < cur then (some cand, some row.nutrient) else acc

/-- The whole stage-1 sizing loop of `calculateDiet`. -/
def standardSizingFold (std : FormulaReference) (rows : List ResolvedRow) :
    Option ℚ × Option String :=
  rows.foldl (standardSizingStep std) (none, none)

/-- Result of stage 1: the standard amount, the notes pushed while computing
it, and `limitingNutrientForStandard`. -/
structure StandardStage where
  amount : ℚ
  notes : List String
  limiting : Option String
deriving DecidableEq, Repr

/-- Stage 1 of `calculateDiet` (lines 307-334): elemental ceiling when one
exists, protein-target fallback otherwise. -/
def computeStandardAmount (std : FormulaReference) (rows : List ResolvedRow)
    (targetProtein : Option ℚ) : StandardStage :=
  let s := standardSizingFold std rows
  match s.1 with
  | some m => { amount := max 0 m, notes := [], limiting := s.2 }
  | none =>
    let standardProteinPer100 := (tableLookup std.values "Protein").getD 0
    if 0 < targetProtein.getD 0 ∧ 0 < standardProteinPer100 then
      { amount := targetProtein.getD 0 * 100 / standardProteinPer100
        notes := ["No elemental upper limit found, so standard amount is set by protein target."]
        limiting := none }
    else if 0 < targetProtein.getD 0 then
      { amount := 0
        notes := ["Standard formula has zero protein, so protein deficit remains."]
        limiting := none }
    else { amount := 0, notes := [], limiting := none }

/-- Stage 1 applied to the actual inputs. -/
def standardStageOf (i : CalculationInputs) : StandardStage :=
  computeStandardAmount i.standard (rowsOf i) (targetOf i "Protein")

/-- The `standardItem` plan contribution. -/
def standardItemOf (i : CalculationInputs) : FormulaContribution :=
  makeContribution .standard i.standard (standardStageOf i).amount
    ((safeFeedsOf i : ℤ) : ℚ) (safeScoopOf i) (safeWaterOf i) i.primaryLimiter

/-- The note pushed when a limiting nutrient was found (lines 347-357). -/
def limitingNotesOf (i : CalculationInputs) : List String :=
  match (standardStageOf i).limiting with
  | none => []
  | some n =>
    if strNonempty n then
      if (i.special).isSome then
        [n ++ " reached its highest allowed level from standard formula. Special formula will complete remaining needs."]
      else
        [n ++ " reached its highest allowed level from standard formula, but no special formula is selected."]
    else []

/-- Stage 2 of `calculateDiet` (lines 359-388): the special amount and notes. -/
def specialStageOf (i : CalculationInputs) : ℚ × List String :=
  match i.special with
  | some sf =>
    requiredAmountForFormulaCompletion sf "Special formula" (completionTargetsOf i)
      [standardItemOf i] (formulaByRoleOf i)
  | none =>
    if hasRemainingCompletionDeficit (completionTargetsOf i) [standardItemOf i]
        (formulaByRoleOf i) then
      (0, ["No special formula selected. Remaining deficits will be handled by modular."])
    else (0, [])

/-- The special plan contribution, when a special formula is supplied. -/
def specialItemsOf (i : CalculationInputs) : List FormulaContribution :=
  match i.special with
  | some sf =>
    [makeContribution .special sf (specialStageOf i).1 ((safeFeedsOf i : ℤ) : ℚ)
      (safeScoopOf i) (safeWaterOf i) i.primaryLimiter]
  | none => []

/-- The plan items after stage 2. -/
def planItems2Of (i : CalculationInputs) : List FormulaContribution :=
  standardItemOf i :: specialItemsOf i

/-- Stage 3 of `calculateDiet` (lines 390-419): the modular amount and notes;
its delivered baseline is the plan after stage 2. -/
def modularStageOf (i : CalculationInputs) : ℚ × List String :=
  match i.modular with
  | some mf =>
    requiredAmountForFormulaCompletion mf "Modular formula" (completionTargetsOf i)
      (planItems2Of i) (formulaByRoleOf i)
  | none =>
    if hasRemainingCompletionDeficit (completionTargetsOf i) (planItems2Of i)
        (formulaByRoleOf i) then
      (0, ["No modular formula selected while deficits exist."])
    else (0, [])

/-- The modular plan contribution, when a modular formula is supplied. -/
def modularItemsOf (i : CalculationInputs) : List FormulaContribution :=
  match i.modular with
  | some mf =>
    [makeContribution .modular mf (modularStageOf i).1 ((safeFeedsOf i : ℤ) : ℚ)
      (safeScoopOf i) (safeWaterOf i) i.primaryLimiter]
  | none => []

/-- The final `planItems` array. -/
def planItemsOf (i : CalculationInputs) : List FormulaContribution :=
  planItems2Of i ++ modularItemsOf i

/-- The final `planNotes` array, in push order. -/
def planNotesOf (i : CalculationInputs) : List String :=
  (standardStageOf i).notes ++ limitingNotesOf i ++ (specialStageOf i).2 ++ (modularStageOf i).2

/-- Model of `totalKcal`. -/
def totalKcalOf (i : CalculationInputs) : ℚ :=
  (planItemsOf i).foldl (fun sum item => sum + item.kcal) 0

/-- Model of `totalProtein`. -/
def totalProteinOf (i : CalculationInputs) : ℚ :=
  (planItemsOf i).foldl (fun sum item => sum + item.protein) 0

/-- Model of `totalPrimaryLimiter`. -/
def totalPrimaryLimiterOf (i : CalculationInputs) : ℚ :=
  (planItemsOf i).foldl (fun sum item =>
    match item.primaryLimiterDelivered with
    | none => sum
    | some v => sum + v) 0

/-- Model of `totalPowderG`. -/
def totalPowderGOf (i : CalculationInputs) : ℚ :=
  (planItemsOf i).foldl (fun sum item =>
    if item.amountUnit = DailyUnit.gDay then sum + item.amount else sum) 0

/-- Model of `totalScoops`. -/
def totalScoopsOf (i : CalculationInputs) : ℚ :=
  (planItemsOf i).foldl (fun sum item => sum + (item.scoops).getD 0) 0

/-- Model of `totalWaterMl`. -/
def totalWaterMlOf (i : CalculationInputs) : ℚ :=
  (planItemsOf i).foldl (fun sum item => sum + (item.waterMl).getD 0) 0

/-- Model of `totalReadyToFeedMl`. -/
def totalReadyToFeedMlOf (i : CalculationInputs) : ℚ :=
  (planItemsOf i).foldl (fun sum item =>
    if item.amountUnit = DailyUnit.mLDay then sum + item.amount else sum) 0

/-- Model of `finalVolumeMl`. -/
def finalVolumeMlOf (i : CalculationInputs) : ℚ :=
  totalReadyToFeedMlOf i + totalWaterMlOf i

/-- The generic delivered-amount loop of the balance evaluator (lines 451-458). -/
def nutrientDelivered (nutrient : String) (items : List FormulaContribution)
    (formulaByRole : FormulaRole → Option FormulaReference) : ℚ :=
  items.foldl (fun sum item =>
    match formulaByRole item.role with
    | none => sum
    | some formula =>
      match formulaNutrient formula nutrient with
      | none => sum
      | some per100 => sum + per100 * item.amount / 100) 0

/-- The delivered amount used for one balance row (lines 444-458). -/
def deliveredOf (i : CalculationInputs) (row : ResolvedRow) : ℚ :=
  if row.nutrient = "Energy" then totalKcalOf i
  else if row.nutrient = "Protein" then totalProteinOf i
  else if row.nutrient = "Fluid" then finalVolumeMlOf i
  else nutrientDelivered row.nutrient (planItemsOf i) (formulaByRoleOf i)

/-- The balance evaluator for one row (lines 460-482). -/
def balanceFor (row : ResolvedRow) (delivered : ℚ) : NutrientBalance :=
  { nutrient := row.nutrient
    unit := row.totalUnit
    min := row.totalMin
    max := row.totalMax
    target := row.totalTarget
    delivered := delivered
    deficitToTarget := max 0 (row.totalTarget - delivered)
    excessToTarget := max 0 (delivered - row.totalTarget)
    status :=
      if row.source.minOnly then
        if delivered < row.totalMin - EPSILON then .LOW else .NORMAL
      else if delivered < row.totalMin - EPSILON then .LOW
      else if row.totalMax + EPSILON < delivered then .HIGH
      else .NORMAL }

/-- The `nutrientBalances` array. -/
def nutrientBalancesOf (i : CalculationInputs) : List NutrientBalance :=
  (rowsOf i).map (fun row => balanceFor row (deliveredOf i row))

/-- Truthiness of `primaryLimiter` (a defined, nonempty limiter string). -/
def plNonempty (i : CalculationInputs) : Bool :=
  match i.primaryLimiter with
  | some s => strNonempty s
  | none => false

/-- Model of `primaryLimitValue` (lines 269-272). -/
def primaryLimitValueOf (i : CalculationInputs) : Option ℚ :=
  match i.primaryLimiter with
  | some pl => if strNonempty pl then resolveCompositeValue pl (targetTableOf i) else none
  | none => none

/-- Model of `primaryLimitUnit` (lines 274-276). -/
def primaryLimitUnitOf (i : CalculationInputs) : String :=
  match i.primaryLimiter with
  | some pl => if strNonempty pl then resolveUnitForComposite pl (unitTableOf i) else "day"
  | none => "day"

/-- The `highlights.primaryLimit` field (lines 491-498). -/
def primaryLimitHighlightOf (i : CalculationInputs) : Option (String × ℚ × String) :=
  match i.primaryLimiter with
  | none => none
  | some pl =>
    match primaryLimitValueOf i with
    | some v => if strNonempty pl then some (pl, v, primaryLimitUnitOf i) else none
    | none => none

/-- Model of `calculateDiet` from `src/calculators.ts`, assembled from the stage
functions above. -/
def calculateDiet (i : CalculationInputs) : CalculationOutputs :=
  { rows := rowsOf i
    highlights :=
      { targetEnergy := targetOf i "Energy"
        targetProtein := targetOf i "Protein"
        targetFluid := targetOf i "Fluid"
        primaryLimit := primaryLimitHighlightOf i }
    formulaPlan :=
      { primaryLimiter := i.primaryLimiter
        notes := planNotesOf i
        items := planItemsOf i
        nutrientBalances := nutrientBalancesOf i
        totals :=
          { kcal := totalKcalOf i
            protein := totalProteinOf i
            primaryLimiter := if plNonempty i then some (totalPrimaryLimiterOf i) else none
            powderG := totalPowderGOf i
            scoops := totalScoopsOf i
            waterMl := totalWaterMlOf i
            readyToFeedMl := totalReadyToFeedMlOf i
            finalVolumeMl := finalVolumeMlOf i
            scoopsPerFeed := totalScoopsOf i / ((safeFeedsOf i : ℤ) : ℚ)
            volumePerFeedMl := finalVolumeMlOf i / ((safeFeedsOf i : ℤ) : ℚ) }
        deficits :=
          { protein := max 0 ((targetOf i "Protein").getD 0 - totalProteinOf i)
            energy := max 0 ((targetOf i "Energy").getD 0 - totalKcalOf i) } } }


/-- End-to-end fixture guideline: Protein 2-4 g/kg (MID target 3 g/kg) and a
restricted amino acid X 20-60 mg/kg. -/
def fxGuide : AgeGuideline :=
  ⟨"0-1", [("Protein", ⟨2, 4, .gKg, none, false⟩), ("X", ⟨20, 60, .mgKg, none, false⟩)]⟩

/-- Fixture standard formula: Protein 11 g/100g, X 400 mg/100g. -/
def fxStd : FormulaReference := ⟨"Std", .g100, [("Protein", 11), ("X", 400)]⟩

/-- Fixture special formula: Protein 13 g/100g, X 0. -/
def fxSpecial : FormulaReference := ⟨"Special", .g100, [("Protein", 13), ("X", 0)]⟩

/-- Fixture inputs: weight 4 kg, 8 feeds/day, scoop 5 g, water 30 mL/scoop, MID. -/
def fxInputs : CalculationInputs :=
  { weightKg := 4, ageGroupIndex := 0, targetMode := .MID, feedsPerDay := 8,
    scoopSizeG := 5, waterPerScoopMl := 30,
    standard := fxStd, special := some fxSpecial, modular := none,
    guidelines := [fxGuide], primaryLimiter := some "X" }

/-! ### Spec-side descriptions of the two sizing loops

These definitions follow the wording of the specification (candidate set,
minimum, maximum); the theorems below connect them to the loops of the code.
-/

/-- Minimum of a list of rationals, `none` for the empty list. -/
def listMin : List ℚ → Option ℚ
  | [] => none
  | x :: xs =>
    match listMin xs with
    | none => some x
    | some m => some (min x m)

/-- Minimum of two optional rationals, `none` standing for `+∞`. -/
def optMin : Option ℚ → Option ℚ → Option ℚ
  | none, b => b
  | some a, none => some a
  | some a, some b => some (min a b)

/-- The stage-1 candidate of one guideline row, when the row qualifies:
amino-acid-like, not `minOnly`, per-100 content resolving to more than
`EPSILON`; the candidate is `totalMax * 100 / per100`. -/
def rowCandidateOpt (std : FormulaReference) (row : ResolvedRow) : Option ℚ :=
  if isAminoAcidNutrient row.nutrient = true ∧ row.source.minOnly = false then
    match formulaNutrient std row.nutrient with
    | some p => if EPSILON < p then some (row.totalMax * 100 / p) else none
    | none => none
  else none

/-- All stage-1 candidates of a row list, in order. -/
def standardCandidates (std : FormulaReference) (rows : List ResolvedRow) : List ℚ :=
  rows.filterMap (rowCandidateOpt std)

theorem optMin_none_right (a : Option ℚ) : optMin a none = a := by
  cases a <;> rfl

theorem optMin_assoc (a b c : Option ℚ) :
    optMin (optMin a b) c = optMin a (optMin b c) := by
  cases a <;> cases b <;> cases c <;> simp [optMin, min_assoc]

theorem listMin_cons (x : ℚ) (l : List ℚ) :
    listMin (x :: l) = optMin (some x) (listMin l) := by
  cases h : listMin l <;> simp [listMin, optMin, h]

theorem listMin_isSome_of_mem {l : List ℚ} {x : ℚ} (hx : x ∈ l) :
    ∃ m, listMin l = some m := by
  induction l with
  | nil => cases hx
  | cons y ys ih =>
    cases h : listMin ys with
    | none => exact ⟨y, by simp [listMin, h]⟩
    | some m => exact ⟨min y m, by simp [listMin, h]⟩

theorem listMin_le_of_mem : ∀ (l : List ℚ) (m x : ℚ), listMin l = some m → x ∈ l → m ≤ x
  | [], _, _, _, hx => by cases hx
  | y :: ys, m, x, hm, hx => by
    rcases List.mem_cons.mp hx with rfl | hx'
    · cases h : listMin ys with
      | none =>
        simp [listMin, h] at hm
        subst hm
        exact le_refl _
      | some m' =>
        simp [listMin, h] at hm
        subst hm
        exact min_le_left _ _
    · cases h : listMin ys with
      | none =>
        rcases listMin_isSome_of_mem hx' with ⟨m', hm'⟩
        rw [h] at hm'
        cases hm'
      | some m' =>
        have h2 := listMin_le_of_mem ys m' x h hx'
        simp [listMin, h] at hm
        subst hm
        exact le_trans (min_le_right _ _) h2

theorem standardSizingStep_fst (std : FormulaReference)
    (acc : Option ℚ × Option String) (row : ResolvedRow) :
    (standardSizingStep std acc row).1 = optMin acc.1 (rowCandidateOpt std row) := by
  cases hA : isAminoAcidNutrient row.nutrient with
  | false => simp [standardSizingStep, rowCandidateOpt, hA, optMin_none_right]
  | true =>
    cases hM : row.source.minOnly with
    | true => simp [standardSizingStep, rowCandidateOpt, hA, hM, optMin_none_right]
    | false =>
      cases hF : formulaNutrient std row.nutrient with
      | none => simp [standardSizingStep, rowCandidateOpt, hA, hM, hF, optMin_none_right]
      | some p =>
        by_cases hp : p ≤ EPSILON
        · simp [standardSizingStep, rowCandidateOpt, hA, hM, hF, hp, not_lt.mpr hp,
            optMin_none_right]
        · have hp' : EPSILON < p := not_le.mp hp
          cases hacc : acc.1 with
          | none => simp [standardSizingStep, rowCandidateOpt, hA, hM, hF, hp, hp', hacc, optMin]
          | some cur =>
            by_cases hlt : row.totalMax * 100 / p < cur
            · simp [standardSizingStep, rowCandidateOpt, hA, hM, hF, hp, hp', hacc, hlt, optMin,
                min_eq_right (le_of_lt hlt)]
            · simp [standardSizingStep, rowCandidateOpt, hA, hM, hF, hp, hp', hacc, hlt, optMin,
                min_eq_left (not_lt.mp hlt)]

theorem standardSizingFold_fst (std : FormulaReference) :
    ∀ (rows : List ResolvedRow) (acc : Option ℚ × Option String),
      (rows.foldl (standardSizingStep std) acc).1 =
        optMin acc.1 (listMin (standardCandidates std rows))
  | [], acc => by simp [standardCandidates, listMin, optMin_none_right]
  | row :: rows, acc => by
    have hstep := standardSizingStep_fst std acc row
    calc ((row :: rows).foldl (standardSizingStep std) acc).1
        = (rows.foldl (standardSizingStep std) (standardSizingStep std acc row)).1 := by
          simp [List.foldl]
      _ = optMin (standardSizingStep std acc row).1
            (listMin (standardCandidates std rows)) :=
          standardSizingFold_fst std rows _
      _ = optMin acc.1 (listMin (standardCandidates std (row :: rows))) := by
          rw [hstep, optMin_assoc]
          cases h : rowCandidateOpt std row with
          | none => simp [standardCandidates, List.filterMap_cons, h, optMin]
          | some c => simp [standardCandidates, List.filterMap_cons, h, listMin_cons]

/-- The amount computed by stage 1, described through the candidate minimum. -/
theorem computeStandardAmount_amount (std : FormulaReference) (rows : List ResolvedRow)
    (tp : Option ℚ) :
    (computeStandardAmount std rows tp).amount =
      match listMin (standardCandidates std rows) with
      | some m => max 0 m
      | none =>
        if 0 < tp.getD 0 ∧ 0 < (tableLookup std.values "Protein").getD 0 then
          tp.getD 0 * 100 / (tableLookup std.values "Protein").getD 0
        else 0 := by
  have hfold : (standardSizingFold std rows).1 = listMin (standardCandidates std rows) := by
    simpa [standardSizingFold, optMin] using
      standardSizingFold_fst std rows (none, none)
  unfold computeStandardAmount
  cases h : listMin (standardCandidates std rows) with
  | none =>
    rw [hfold.symm] at h
    by_cases hc : 0 < tp.getD 0 ∧ 0 < (tableLookup std.values "Protein").getD 0
    · simp [h, hfold, hc]
    · by_cases ht : 0 < tp.getD 0
      · have : ¬ 0 < (tableLookup std.values "Protein").getD 0 := fun h' => hc ⟨ht, h'⟩
        simp [h, hfold, hc, ht, this]
      · simp [h, hfold, hc, ht]
  | some m =>
    rw [hfold.symm] at h
    simp [h, hfold]

/-- The completion amount demanded by one target, when it participates: a
numeric target, a deficit above `EPSILON` against the fixed plan baseline, and
a per-100 content above `EPSILON`; the demand is `deficit * 100 / per100`. -/
def completionNeededOpt (formula : FormulaReference) (items : List FormulaContribution)
    (roles : FormulaRole → Option FormulaReference) (ct : CompletionTarget) : Option ℚ :=
  match ct.target with
  | none => none
  | some target =>
    let deficit := max 0 (target - deliveredForCompletionNutrient ct.nutrient items roles)
    if deficit ≤ EPSILON then none
    else
      match formulaNutrient formula ct.nutrient.key with
      | some per100 => if EPSILON < per100 then some (deficit * 100 / per100) else none
      | none => none

/-- All participating completion demands, in target order. -/
def completionNeeded (formula : FormulaReference) (targets : List CompletionTarget)
    (items : List FormulaContribution)
    (roles : FormulaRole → Option FormulaReference) : List ℚ :=
  targets.filterMap (completionNeededOpt formula items roles)

/-- The advisory note produced by one target: a numeric target with a deficit
above `EPSILON` whose per-100 content is missing or not above `EPSILON`. -/
def completionNoteOpt (formula : FormulaReference) (formulaLabel : String)
    (items : List FormulaContribution) (roles : FormulaRole → Option FormulaReference)
    (ct : CompletionTarget) : Option String :=
  match ct.target with
  | none => none
  | some target =>
    let deficit := max 0 (target - deliveredForCompletionNutrient ct.nutrient items roles)
    if deficit ≤ EPSILON then none
    else
      let note := formulaLabel ++ " has zero " ++ ct.label ++ ", so " ++ ct.label
        ++ " deficit remains."
      match formulaNutrient formula ct.nutrient.key with
      | some per100 => if EPSILON < per100 then none else some note
      | none => some note

/-- All advisory notes of the completion loop, in target order. -/
def completionNotes (formula : FormulaReference) (formulaLabel : String)
    (targets : List CompletionTarget) (items : List FormulaContribution)
    (roles : FormulaRole → Option FormulaReference) : List String :=
  targets.filterMap (completionNoteOpt formula formulaLabel items roles)

theorem completionStep_eq (formula : FormulaReference) (formulaLabel : String)
    (items : List FormulaContribution) (roles : FormulaRole → Option FormulaReference)
    (a : ℚ) (ns : List String) (ct : CompletionTarget) :
    completionStep formula formulaLabel items roles (a, ns) ct =
      ((match completionNeededOpt formula items roles ct with
        | some n => max a n
        | none => a),
       ns ++ (completionNoteOpt formula formulaLabel items roles ct).toList) := by
  cases ht : ct.target with
  | none => simp [completionStep, completionNeededOpt, completionNoteOpt, ht]
  | some target =>
    by_cases hd : max 0 (target - deliveredForCompletionNutrient ct.nutrient items roles) ≤ EPSILON
    · simp [completionStep, completionNeededOpt, completionNoteOpt, ht, hd]
    · cases hf : formulaNutrient formula ct.nutrient.key with
      | none => simp [completionStep, completionNeededOpt, completionNoteOpt, ht, hd, hf]
      | some per100 =>
        by_cases hp : EPSILON < per100
        · by_cases hlt : a <
            max 0 (target - deliveredForCompletionNutrient ct.nutrient items roles) * 100 / per100
          · simp [completionStep, completionNeededOpt, completionNoteOpt, ht, hd, hf, hp, hlt,
              max_eq_right (le_of_lt hlt)]
          · simp [completionStep, completionNeededOpt, completionNoteOpt, ht, hd, hf, hp, hlt,
              max_eq_left (not_lt.mp hlt)]
        · simp [completionStep, completionNeededOpt, completionNoteOpt, ht, hd, hf, hp]

theorem completion_foldl (formula : FormulaReference) (formulaLabel : String)
    (items : List FormulaContribution) (roles : FormulaRole → Option FormulaReference) :
    ∀ (targets : List CompletionTarget) (a : ℚ) (ns : List String),
      targets.foldl (completionStep formula formulaLabel items roles) (a, ns) =
        ((completionNeeded formula targets items roles).foldl max a,
         ns ++ completionNotes formula formulaLabel targets items roles)
  | [], a, ns => by simp [completionNeeded, completionNotes]
  | ct :: targets, a, ns => by
    rw [List.foldl_cons, completionStep_eq]
    rw [completion_foldl formula formulaLabel items roles targets]
    cases hn : completionNeededOpt formula items roles ct with
    | none =>
      cases ho : completionNoteOpt formula formulaLabel items roles ct with
      | none =>
        simp [completionNeeded, completionNotes, List.filterMap_cons, hn, ho]
      | some s =>
        simp [completionNeeded, completionNotes, List.filterMap_cons, hn, ho]
    | some n =>
      cases ho : completionNoteOpt formula formulaLabel items roles ct with
      | none =>
        simp [completionNeeded, completionNotes, List.filterMap_cons, hn, ho]
      | some s =>
        simp [completionNeeded, completionNotes, List.filterMap_cons, hn, ho]

/-- The completion loop, described as a maximum over the participating
demands, together with its advisory notes. -/
theorem requiredAmount_eq (formula : FormulaReference) (formulaLabel : String)
    (targets : List CompletionTarget) (items : List FormulaContribution)
    (roles : FormulaRole → Option FormulaReference) :
    requiredAmountForFormulaCompletion formula formulaLabel targets items roles =
      ((completionNeeded formula targets items roles).foldl max 0,
       completionNotes formula formulaLabel targets items roles) := by
  have := completion_foldl formula formulaLabel items roles targets 0 []
  simpa [requiredAmountForFormulaCompletion] using this

theorem le_foldl_max : ∀ (l : List ℚ) (a : ℚ), a ≤ l.foldl max a
  | [], a => le_refl a
  | x :: xs, a => le_trans (le_max_left a x) (le_foldl_max xs (max a x))

theorem foldl_max_mono : ∀ {l₂ l₁ : List ℚ}, List.Forall₂ (· ≤ ·) l₂ l₁ →
    ∀ {a₂ a₁ : ℚ}, a₂ ≤ a₁ → l₂.foldl max a₂ ≤ l₁.foldl max a₁
  | _, _, List.Forall₂.nil, _, _, ha => ha
  | _, _, List.Forall₂.cons hx hl, _, _, ha =>
    foldl_max_mono hl (max_le_max ha hx)

/-! ### Claim C5 and C10: composite key resolution -/

/-- Sum of the values of a list of parts, absent entries counting as 0
(only used when every part is known to be present). -/
def partsSum (values : ValueTable) (parts : List String) : ℚ :=
  parts.foldr (fun p s => (tableLookup values p).getD 0 + s) 0

theorem sumLookups_eq (values : ValueTable) :
    ∀ parts : List String,
      sumLookups values parts =
        if parts.all (fun p => (tableLookup values p).isSome)
        then some (partsSum values parts) else none
  | [] => by simp [sumLookups, partsSum]
  | p :: ps => by
    cases h : tableLookup values p with
    | none => simp [sumLookups, h]
    | some v =>
      rw [sumLookups, h, sumLookups_eq values ps]
      by_cases hall : ps.all (fun q => (tableLookup values q).isSome)
      · simp [hall, h, partsSum]
      · simp [hall, h]

/-- C5 (amended): `resolveCompositeValue` returns the direct entry when one
exists; otherwise, for a key containing `'+'`, it splits on `'+'`, trims each
part, DROPS EMPTY PARTS, and returns the sum of the remaining parts' values
iff every remaining part has a numeric entry (`none` when one is missing); a
key without `'+'` and without a direct entry yields `none`. -/
theorem claim5_composite_resolution (key : String) (values : ValueTable) :
    resolveCompositeValue key values =
      match tableLookup values key with
      | some v => some v
      | none =>
        if containsPlus key then
          (if (splitParts key).all (fun p => (tableLookup values p).isSome)
           then some (partsSum values (splitParts key))
           else none)
        else none := by
  cases hd : tableLookup values key with
  | some v => simp [resolveCompositeValue, hd]
  | none =>
    by_cases hp : containsPlus key
    · simp [resolveCompositeValue, hd, hp, sumLookups_eq]
    · simp [resolveCompositeValue, hd, hp]

/-- C5 counterexample: the claim as stated says the parts of `"A+"` are the
trimmed split results `["A", ""]` and that the sum is returned ONLY IF every
part has a numeric entry — so `resolveCompositeValue "A+" {A:2}` would be
`undefined`.  The code filters empty parts out first and returns `some 2`. -/
theorem claim5_counterexample :
    resolveCompositeValue "A+" [("A", 2)] = some 2 ∧
      splitTrim "A+" = ["A", ""] ∧
      (splitTrim "A+").all (fun p => (tableLookup [("A", (2 : ℚ))] p).isSome) = false := by
  refine ⟨?_, by decide, by decide⟩
  have h1 : tableLookup [("A", (2 : ℚ))] "A+" = none := by decide
  have h2 : containsPlus "A+" = true := by decide
  have h3 : splitParts "A+" = ["A"] := by decide
  have h4 : tableLookup [("A", (2 : ℚ))] "A" = some 2 := by decide
  have h5 : resolveCompositeValue "A+" [("A", (2 : ℚ))] =
      sumLookups [("A", (2 : ℚ))] (splitParts "A+") := by
    simp [resolveCompositeValue, h1, h2]
  rw [h5, h3, sumLookups, h4]
  simp [sumLookups]

/-- C10: a key containing `'+'` whose every part trims to the empty string,
and which has no direct entry, resolves to `some 0` for every value table:
empty parts are filtered out before the all-parts-present check, and the
empty sum is returned. -/
theorem claim10_empty_composite (key : String) (values : ValueTable)
    (hplus : containsPlus key = true)
    (hparts : splitParts key = [])
    (hdirect : tableLookup values key = none) :
    resolveCompositeValue key values = some 0 := by
  simp [resolveCompositeValue, hdirect, hplus, hparts, sumLookups]

theorem claim10_witness :
    containsPlus " + " = true ∧ splitParts " + " = [] ∧
      tableLookup ([("A", 2)] : ValueTable) " + " = none ∧
      resolveCompositeValue " + " ([("A", 2)] : ValueTable) = some 0 :=
  ⟨by decide, by decide, by decide,
    claim10_empty_composite " + " [("A", 2)] (by decide) (by decide) (by decide)⟩

/-! ### Claim C6: nutrient balance classification -/

/-- C6: the balance evaluator classifies `LOW` when delivered is below
`totalMin - ε`, `HIGH` (only for non-`minOnly` rows) when delivered is above
`totalMax + ε`, `NORMAL` otherwise; a `minOnly` row is never `HIGH`; and the
deficit/excess fields are the clamped distances to the target.  The last
conjunct ties the evaluator to `calculateDiet`'s balance array. -/
theorem claim6_balance_classification (row : ResolvedRow) (d : ℚ) :
    ((balanceFor row d).status =
        (if d < row.totalMin - EPSILON then BalanceStatus.LOW
         else if row.source.minOnly = false ∧ row.totalMax + EPSILON < d then BalanceStatus.HIGH
         else BalanceStatus.NORMAL)) ∧
      (balanceFor row d).deficitToTarget = max 0 (row.totalTarget - d) ∧
      (balanceFor row d).excessToTarget = max 0 (d - row.totalTarget) ∧
      (row.source.minOnly = true → (balanceFor row d).status ≠ BalanceStatus.HIGH) ∧
      (∀ i : CalculationInputs,
        (calculateDiet i).formulaPlan.nutrientBalances =
          (rowsOf i).map (fun r => balanceFor r (deliveredOf i r))) := by
  refine ⟨?_, rfl, rfl, ?_, fun i => rfl⟩
  · cases hmo : row.source.minOnly with
    | true =>
      by_cases hlow : d < row.totalMin - EPSILON
      · simp [balanceFor, hmo, hlow]
      · simp [balanceFor, hmo, hlow]
    | false =>
      by_cases hlow : d < row.totalMin - EPSILON
      · simp [balanceFor, hmo, hlow]
      · by_cases hhigh : row.totalMax + EPSILON < d
        · simp [balanceFor, hmo, hlow, hhigh]
        · simp [balanceFor, hmo, hlow, hhigh]
  · intro hmo
    by_cases hlow : d < row.totalMin - EPSILON
    · simp [balanceFor, hmo, hlow]
    · simp [balanceFor, hmo, hlow]

theorem claim6_witness :
    (balanceFor ⟨"Cystine", ⟨1, 2, .mgDay, none, true⟩, 1, 2, 1, .mgDay⟩ 500).status ≠
      BalanceStatus.HIGH :=
  (claim6_balance_classification ⟨"Cystine", ⟨1, 2, .mgDay, none, true⟩, 1, 2, 1, .mgDay⟩
    500).2.2.2.1 rfl

/-! ### Claim C8: defensive input clamps -/

/-- C8: the engine clamps its inputs itself: weight floored at 0, feeds per
day floored at 1 (an integer, `safeFeedsOf` has codomain `ℤ`), scoop size
floored at 0.1 (hence positive, so per-scoop division is never by zero),
water per scoop floored at 0, and the age-group index clamped into
`[0, guidelineCount - 1]`, a valid index whenever the guideline list is
nonempty. -/
theorem claim8_defensive_clamps (i : CalculationInputs) :
    0 ≤ safeWeightOf i ∧
      1 ≤ safeFeedsOf i ∧
      1 / 10 ≤ safeScoopOf i ∧
      0 < safeScoopOf i ∧
      0 ≤ safeWaterOf i ∧
      (0 < i.guidelines.length →
        0 ≤ safeAgeIndexOf i ∧
          safeAgeIndexOf i ≤ (i.guidelines.length : ℤ) - 1 ∧
          (safeAgeIndexOf i).toNat < i.guidelines.length) := by
  refine ⟨le_max_left 0 _, le_max_left 1 _, le_max_left _ _,
    lt_of_lt_of_le (by norm_num) (le_max_left ((1 : ℚ) / 10) _), le_max_left 0 _, ?_⟩
  intro hlen
  have h0 : (0 : ℤ) ≤ (i.guidelines.length : ℤ) - 1 := by omega
  have h1 : 0 ≤ safeAgeIndexOf i := le_min (le_max_left 0 _) h0
  have h2 : safeAgeIndexOf i ≤ (i.guidelines.length : ℤ) - 1 := min_le_right _ _
  exact ⟨h1, h2, by omega⟩

theorem claim8_witness :
    0 ≤ safeWeightOf fxInputs ∧ 1 ≤ safeFeedsOf fxInputs ∧
      (safeAgeIndexOf fxInputs).toNat < fxInputs.guidelines.length :=
  ⟨(claim8_defensive_clamps fxInputs).1, (claim8_defensive_clamps fxInputs).2.1,
    ((claim8_defensive_clamps fxInputs).2.2.2.2.2 (by decide)).2.2⟩

/-! ### Claim C1: stage-1 standard-formula sizing -/

/-- C1 (amended): every amino-acid-like, non-`minOnly` row whose per-100
content in the standard formula resolves above `EPSILON` contributes the
candidate `totalMax * 100 / per100`; the standard amount is the minimum
candidate clamped at 0; with no candidate it falls back to
`targetProtein * 100 / proteinPer100` when the protein target is positive and
the formula's direct protein entry is positive, and to 0 otherwise — with the
zero-protein note recorded exactly when the protein target is positive (the
claim's assertion that the 0 case always records a note is corrected). -/
theorem claim1_standard_sizing (std : FormulaReference) (rows : List ResolvedRow)
    (tp : Option ℚ) :
    (∀ row ∈ rows, isAminoAcidNutrient row.nutrient = true → row.source.minOnly = false →
        ∀ p, formulaNutrient std row.nutrient = some p → EPSILON < p →
          row.totalMax * 100 / p ∈ standardCandidates std rows) ∧
      (∀ m, listMin (standardCandidates std rows) = some m →
        (computeStandardAmount std rows tp).amount = max 0 m) ∧
      (listMin (standardCandidates std rows) = none →
        (0 < tp.getD 0 ∧ 0 < (tableLookup std.values "Protein").getD 0 →
            (computeStandardAmount std rows tp).amount =
              tp.getD 0 * 100 / (tableLookup std.values "Protein").getD 0) ∧
          (¬(0 < tp.getD 0 ∧ 0 < (tableLookup std.values "Protein").getD 0) →
            (computeStandardAmount std rows tp).amount = 0 ∧
              (computeStandardAmount std rows tp).notes =
                (if 0 < tp.getD 0 then
                  ["Standard formula has zero protein, so protein deficit remains."]
                 else []))) := by
  have hfold : (standardSizingFold std rows).1 = listMin (standardCandidates std rows) := by
    simpa [standardSizingFold, optMin] using standardSizingFold_fst std rows (none, none)
  refine ⟨?_, ?_, ?_⟩
  · intro row hrow hA hM p hF hp
    refine List.mem_filterMap.mpr ⟨row, hrow, ?_⟩
    simp [rowCandidateOpt, hA, hM, hF, hp]
  · intro m hm
    rw [computeStandardAmount_amount, hm]
  · intro hnone
    rw [← hfold] at hnone
    constructor
    · intro hc
      simp [computeStandardAmount, hnone, hc]
    · intro hc
      by_cases ht : 0 < tp.getD 0
      · have hpr : ¬ 0 < (tableLookup std.values "Protein").getD 0 := fun h => hc ⟨ht, h⟩
        constructor <;> simp [computeStandardAmount, hnone, hc, ht, hpr]
      · constructor <;> simp [computeStandardAmount, hnone, hc, ht]

/-- C1 counterexample: with no qualifying nutrient, a zero-protein standard
formula and no (hence non-positive) protein target, the fallback sets the
standard amount to 0 and records NO note, while the claim as stated says a
note is recorded in that case. -/
theorem claim1_note_counterexample :
    standardCandidates ⟨"Std0", .g100, []⟩ [] = [] ∧
      (computeStandardAmount ⟨"Std0", .g100, []⟩ [] none).amount = 0 ∧
      (computeStandardAmount ⟨"Std0", .g100, []⟩ [] none).notes = [] := by
  refine ⟨rfl, ?_, ?_⟩ <;>
    norm_num [computeStandardAmount, standardSizingFold, tableLookup]

theorem claim1_witness :
    (computeStandardAmount ⟨"S1", .g100, []⟩ [] none).amount = 0 ∧
      (computeStandardAmount ⟨"S1", .g100, []⟩ [] none).notes = [] := by
  have h := (claim1_standard_sizing ⟨"S1", .g100, []⟩ [] none).2.2 rfl
  have h2 := h.2 (by norm_num [tableLookup])
  exact ⟨h2.1, by simpa using h2.2⟩

/-! ### Claim C2: ceiling respect -/

/-- C2: for every guideline row used to size the standard formula
(amino-acid-like, not `minOnly`, per-100 content resolving above `EPSILON`,
with the guideline ceiling non-negative as every clinical band is), the
amount of that nutrient delivered by the standard contribution alone,
`per100 * standardAmount / 100`, does not exceed the row's resolved
`totalMax` by more than `EPSILON`. -/
theorem claim2_ceiling_respect (std : FormulaReference) (rows : List ResolvedRow)
    (tp : Option ℚ) (row : ResolvedRow) (p : ℚ)
    (hrow : row ∈ rows)
    (hA : isAminoAcidNutrient row.nutrient = true)
    (hM : row.source.minOnly = false)
    (hF : formulaNutrient std row.nutrient = some p)
    (hp : EPSILON < p)
    (hmax : 0 ≤ row.totalMax) :
    p * (computeStandardAmount std rows tp).amount / 100 ≤ row.totalMax + EPSILON := by
  have hppos : 0 < p := lt_trans (by norm_num [EPSILON]) hp
  have hc : row.totalMax * 100 / p ∈ standardCandidates std rows := by
    refine List.mem_filterMap.mpr ⟨row, hrow, ?_⟩
    simp [rowCandidateOpt, hA, hM, hF, hp]
  rcases listMin_isSome_of_mem hc with ⟨m, hm⟩
  have hamount : (computeStandardAmount std rows tp).amount = max 0 m := by
    rw [computeStandardAmount_amount, hm]
  have hmle : m ≤ row.totalMax * 100 / p := listMin_le_of_mem _ _ _ hm hc
  have hcand0 : 0 ≤ row.totalMax * 100 / p :=
    div_nonneg (mul_nonneg hmax (by norm_num)) hppos.le
  have hle : (computeStandardAmount std rows tp).amount ≤ row.totalMax * 100 / p := by
    rw [hamount]; exact max_le hcand0 hmle
  have hkey : p * (row.totalMax * 100 / p) / 100 = row.totalMax := by
    field_simp
  calc p * (computeStandardAmount std rows tp).amount / 100
      ≤ p * (row.totalMax * 100 / p) / 100 := by
        apply div_le_div_of_nonneg_right ?_ (by norm_num)
        exact mul_le_mul_of_nonneg_left hle hppos.le
    _ = row.totalMax := hkey
    _ ≤ row.totalMax + EPSILON := le_add_of_nonneg_right (by norm_num [EPSILON])

theorem claim2_witness :
    (400 : ℚ) *
        (computeStandardAmount ⟨"S2", .g100, [("Y", 400)]⟩
          [⟨"Y", ⟨20, 60, .mgKg, none, false⟩, 80, 240, 160, .mgDay⟩] none).amount / 100 ≤
      240 + EPSILON :=
  claim2_ceiling_respect ⟨"S2", .g100, [("Y", 400)]⟩
    [⟨"Y", ⟨20, 60, .mgKg, none, false⟩, 80, 240, 160, .mgDay⟩] none
    ⟨"Y", ⟨20, 60, .mgKg, none, false⟩, 80, 240, 160, .mgDay⟩ 400
    (List.mem_singleton.mpr rfl) (by decide) rfl (by decide)
    (by norm_num [EPSILON]) (by norm_num)

/-! ### Claim C3: stage-2/3 completion sizing -/

/-- A protein-free modular energy filler used by the C3 witness input. -/
def fxC3Mod : FormulaReference := ⟨"Mod", .g100, [("Energy", 500)]⟩

/-- C3 witness input: like the fixture, but with a modular formula supplied. -/
def fxC3 : CalculationInputs :=
  { weightKg := 4, ageGroupIndex := 0, targetMode := .MID, feedsPerDay := 8,
    scoopSizeG := 5, waterPerScoopMl := 30,
    standard := fxStd, special := some fxSpecial, modular := some fxC3Mod,
    guidelines := [fxGuide], primaryLimiter := some "X" }

/-- C3: the completion amount for a supplied special or modular formula is the
maximum, over the completion targets with a numeric target, a deficit above
`EPSILON` against the fixed plan baseline and a per-100 content above
`EPSILON`, of `deficit * 100 / per100` (a fold of `max` from 0, hence 0 when
no target participates); targets with a positive deficit but per-100 content
not above `EPSILON` yield an advisory note instead; stage 2 is run against
the standard item alone and stage 3 against standard + special. -/
theorem claim3_completion_sizing :
    (∀ (formula : FormulaReference) (formulaLabel : String)
        (targets : List CompletionTarget) (items : List FormulaContribution)
        (roles : FormulaRole → Option FormulaReference),
      (requiredAmountForFormulaCompletion formula formulaLabel targets items roles).1 =
          (completionNeeded formula targets items roles).foldl max 0 ∧
        (requiredAmountForFormulaCompletion formula formulaLabel targets items roles).2 =
          completionNotes formula formulaLabel targets items roles) ∧
      (∀ (i : CalculationInputs) (sf : FormulaReference), i.special = some sf →
        specialStageOf i =
          requiredAmountForFormulaCompletion sf "Special formula" (completionTargetsOf i)
            [standardItemOf i] (formulaByRoleOf i)) ∧
      (∀ (i : CalculationInputs) (mf : FormulaReference), i.modular = some mf →
        modularStageOf i =
          requiredAmountForFormulaCompletion mf "Modular formula" (completionTargetsOf i)
            (standardItemOf i :: specialItemsOf i) (formulaByRoleOf i)) := by
  refine ⟨?_, ?_, ?_⟩
  · intro formula formulaLabel targets items roles
    rw [requiredAmount_eq]
    exact ⟨rfl, rfl⟩
  · intro i sf hsf
    simp [specialStageOf, hsf]
  · intro i mf hmf
    simp [modularStageOf, planItems2Of, hmf]

theorem claim3_witness :
    modularStageOf fxC3 =
      requiredAmountForFormulaCompletion fxC3Mod "Modular formula" (completionTargetsOf fxC3)
        (standardItemOf fxC3 :: specialItemsOf fxC3) (formulaByRoleOf fxC3) :=
  claim3_completion_sizing.2.2 fxC3 fxC3Mod rfl

/-! ### Claim C7: monotonic completion -/

theorem completionNeededOpt_mono_cases (items : List FormulaContribution)
    (roles : FormulaRole → Option FormulaReference) (f1 f2 : FormulaReference)
    (N : CompletionNutrient) (p1 p2 : ℚ)
    (h1 : formulaNutrient f1 N.key = some p1)
    (h2 : formulaNutrient f2 N.key = some p2)
    (hε : EPSILON < p1) (h12 : p1 ≤ p2)
    (hother : ∀ K : CompletionNutrient, K ≠ N →
      formulaNutrient f2 K.key = formulaNutrient f1 K.key)
    (ct : CompletionTarget) :
    (completionNeededOpt f2 items roles ct = none ∧
        completionNeededOpt f1 items roles ct = none) ∨
      (∃ n2 n1, completionNeededOpt f2 items roles ct = some n2 ∧
        completionNeededOpt f1 items roles ct = some n1 ∧ n2 ≤ n1) := by
  cases ht : ct.target with
  | none => exact Or.inl ⟨by simp [completionNeededOpt, ht], by simp [completionNeededOpt, ht]⟩
  | some target =>
    set d := max 0 (target - deliveredForCompletionNutrient ct.nutrient items roles) with hdd
    by_cases hd : d ≤ EPSILON
    · exact Or.inl ⟨by simp [completionNeededOpt, ht, ← hdd, hd],
        by simp [completionNeededOpt, ht, ← hdd, hd]⟩
    · by_cases hN : ct.nutrient = N
      · subst hN
        have hp2 : EPSILON < p2 := lt_of_lt_of_le hε h12
        have hd0 : 0 < d := lt_trans (by norm_num [EPSILON]) (not_le.mp hd)
        refine Or.inr ⟨d * 100 / p2, d * 100 / p1, ?_, ?_, ?_⟩
        · simp [completionNeededOpt, ht, ← hdd, hd, h2, hp2]
        · simp [completionNeededOpt, ht, ← hdd, hd, h1, hε]
        · gcongr
          exact lt_trans (by norm_num [EPSILON]) hε
      · have heq := hother ct.nutrient hN
        cases hf : formulaNutrient f1 ct.nutrient.key with
        | none =>
          exact Or.inl ⟨by simp [completionNeededOpt, ht, ← hdd, hd, heq, hf],
            by simp [completionNeededOpt, ht, ← hdd, hd, hf]⟩
        | some q =>
          by_cases hq : EPSILON < q
          · exact Or.inr ⟨d * 100 / q, d * 100 / q,
              by simp [completionNeededOpt, ht, ← hdd, hd, heq, hf, hq],
              by simp [completionNeededOpt, ht, ← hdd, hd, hf, hq], le_refl _⟩
          · exact Or.inl ⟨by simp [completionNeededOpt, ht, ← hdd, hd, heq, hf, hq],
              by simp [completionNeededOpt, ht, ← hdd, hd, hf, hq]⟩

theorem completionNeeded_mono (items : List FormulaContribution)
    (roles : FormulaRole → Option FormulaReference) (f1 f2 : FormulaReference)
    (N : CompletionNutrient) (p1 p2 : ℚ)
    (h1 : formulaNutrient f1 N.key = some p1)
    (h2 : formulaNutrient f2 N.key = some p2)
    (hε : EPSILON < p1) (h12 : p1 ≤ p2)
    (hother : ∀ K : CompletionNutrient, K ≠ N →
      formulaNutrient f2 K.key = formulaNutrient f1 K.key) :
    ∀ targets : List CompletionTarget,
      List.Forall₂ (· ≤ ·) (completionNeeded f2 targets items roles)
        (completionNeeded f1 targets items roles)
  | [] => by simp [completionNeeded]
  | ct :: ts => by
    have hrest := completionNeeded_mono items roles f1 f2 N p1 p2 h1 h2 hε h12 hother ts
    rcases completionNeededOpt_mono_cases items roles f1 f2 N p1 p2 h1 h2 hε h12 hother ct with
      ⟨hn2, hn1⟩ | ⟨n2, n1, hn2, hn1, hle⟩
    · simpa [completionNeeded, List.filterMap_cons, hn2, hn1] using hrest
    · have : completionNeeded f2 (ct :: ts) items roles =
          n2 :: completionNeeded f2 ts items roles := by
        simp [completionNeeded, List.filterMap_cons, hn2]
      rw [this]
      have h1' : completionNeeded f1 (ct :: ts) items roles =
          n1 :: completionNeeded f1 ts items roles := by
        simp [completionNeeded, List.filterMap_cons, hn1]
      rw [h1']
      exact List.Forall₂.cons hle hrest

/-- C7 (amended): holding the plan baseline (hence every deficit) fixed,
raising the per-100 content of one targeted completion nutrient from `p1` to
`p2` never increases the required completion amount, PROVIDED `p1` already
exceeds the `EPSILON` participation threshold (the claim as stated, for every
pair `p1 ≤ p2`, fails when `p1` is at or below the threshold and `p2` above
it: the nutrient then starts participating and the required amount can jump
upward; see the counterexample). -/
theorem claim7_monotonic_completion (formulaLabel : String)
    (targets : List CompletionTarget) (items : List FormulaContribution)
    (roles : FormulaRole → Option FormulaReference) (f1 f2 : FormulaReference)
    (N : CompletionNutrient) (p1 p2 : ℚ)
    (h1 : formulaNutrient f1 N.key = some p1)
    (h2 : formulaNutrient f2 N.key = some p2)
    (hε : EPSILON < p1) (h12 : p1 ≤ p2)
    (hother : ∀ K : CompletionNutrient, K ≠ N →
      formulaNutrient f2 K.key = formulaNutrient f1 K.key) :
    (requiredAmountForFormulaCompletion f2 formulaLabel targets items roles).1 ≤
      (requiredAmountForFormulaCompletion f1 formulaLabel targets items roles).1 := by
  rw [requiredAmount_eq, requiredAmount_eq]
  exact foldl_max_mono
    (completionNeeded_mono items roles f1 f2 N p1 p2 h1 h2 hε h12 hother targets)
    (le_refl 0)

/-- C7 counterexample fixtures: a single protein completion target with
deficit 10 against an empty baseline; `cx7F1` has protein 0 per 100 (at the
threshold, not participating), `cx7F2` has protein 1 per 100. -/
def cx7Target : CompletionTarget := ⟨.Protein, some 10, "protein"⟩

/-- Counterexample formula with per-100 protein 0. -/
def cx7F1 : FormulaReference := ⟨"F1", .g100, [("Protein", 0)]⟩

/-- Counterexample formula with per-100 protein 1. -/
def cx7F2 : FormulaReference := ⟨"F2", .g100, [("Protein", 1)]⟩

/-- C7 counterexample: the per-100 protein values 0 ≤ 1 of `cx7F1`, `cx7F2`
give required amounts 0 and 1000: increasing the per-100 content of a
targeted completion nutrient INCREASED the required amount, refuting the
claim's "for every pair p1 ≤ p2" statement. -/
theorem claim7_counterexample :
    formulaNutrient cx7F1 "Protein" = some 0 ∧
      formulaNutrient cx7F2 "Protein" = some 1 ∧
      ((0 : ℚ) ≤ 1) ∧
      (requiredAmountForFormulaCompletion cx7F1 "Formula" [cx7Target] []
          (fun _ => none)).1 <
        (requiredAmountForFormulaCompletion cx7F2 "Formula" [cx7Target] []
          (fun _ => none)).1 := by
  refine ⟨rfl, rfl, by norm_num, ?_⟩
  norm_num [requiredAmountForFormulaCompletion, completionStep, cx7Target, cx7F1, cx7F2,
    deliveredForCompletionNutrient, formulaNutrient, resolveCompositeValue, tableLookup,
    CompletionNutrient.key, EPSILON]

theorem claim7_witness :
    (requiredAmountForFormulaCompletion ⟨"W2", .g100, [("Protein", 2)]⟩ "Formula"
        [cx7Target] [] (fun _ => none)).1 ≤
      (requiredAmountForFormulaCompletion ⟨"W1", .g100, [("Protein", 1)]⟩ "Formula"
        [cx7Target] [] (fun _ => none)).1 :=
  claim7_monotonic_completion "Formula" [cx7Target] [] (fun _ => none)
    ⟨"W1", .g100, [("Protein", 1)]⟩ ⟨"W2", .g100, [("Protein", 2)]⟩
    .Protein 1 2 rfl rfl (by norm_num [EPSILON]) (by norm_num)
    (fun K hK => by
      cases K with
      | Protein => exact absurd rfl hK
      | Energy => rfl
      | Carbohydrate => rfl
      | Fat => rfl)

/-! ### Claim C9: non-negativity -/

/-- All guideline bands of the selected age guideline are non-negative. -/
abbrev nonnegRanges (i : CalculationInputs) : Prop :=
  ∀ entry ∈ (ageGuideOf i).nutrients,
    0 ≤ entry.2.min ∧ 0 ≤ entry.2.max ∧ 0 ≤ entry.2.mid.getD 0

/-- All per-100 values of a formula are non-negative. -/
abbrev nonnegFormula (f : FormulaReference) : Prop := ∀ kv ∈ f.values, 0 ≤ kv.2

theorem standardAmount_nonneg (std : FormulaReference) (rows : List ResolvedRow)
    (tp : Option ℚ) : 0 ≤ (computeStandardAmount std rows tp).amount := by
  rw [computeStandardAmount_amount]
  cases h : listMin (standardCandidates std rows) with
  | some m => exact le_max_left 0 m
  | none =>
    by_cases hc : 0 < tp.getD 0 ∧ 0 < (tableLookup std.values "Protein").getD 0
    · simp only [hc, if_true]
      exact div_nonneg (mul_nonneg hc.1.le (by norm_num)) hc.2.le
    · simp [hc]

theorem requiredAmount_nonneg (formula : FormulaReference) (formulaLabel : String)
    (targets : List CompletionTarget) (items : List FormulaContribution)
    (roles : FormulaRole → Option FormulaReference) :
    0 ≤ (requiredAmountForFormulaCompletion formula formulaLabel targets items roles).1 := by
  rw [requiredAmount_eq]
  exact le_foldl_max _ 0

theorem specialStage_fst_nonneg (i : CalculationInputs) : 0 ≤ (specialStageOf i).1 := by
  cases h : i.special with
  | none =>
    by_cases hd : hasRemainingCompletionDeficit (completionTargetsOf i) [standardItemOf i]
        (formulaByRoleOf i)
    · simp [specialStageOf, h, hd]
    · simp [specialStageOf, h, hd]
  | some sf => simpa [specialStageOf, h] using requiredAmount_nonneg sf "Special formula" _ _ _

theorem modularStage_fst_nonneg (i : CalculationInputs) : 0 ≤ (modularStageOf i).1 := by
  cases h : i.modular with
  | none =>
    by_cases hd : hasRemainingCompletionDeficit (completionTargetsOf i) (planItems2Of i)
        (formulaByRoleOf i)
    · simp [modularStageOf, h, hd]
    · simp [modularStageOf, h, hd]
  | some mf => simpa [modularStageOf, h] using requiredAmount_nonneg mf "Modular formula" _ _ _

theorem makeContribution_nonneg (role : FormulaRole) (f : FormulaReference) (amount : ℚ)
    (feeds : ℚ) (scoop : ℚ) (water : ℚ) (pl : Option String)
    (hA : 0 ≤ amount) (hf : 0 < feeds) (hw : 0 ≤ water) :
    0 ≤ (makeContribution role f amount feeds scoop water pl).amount ∧
      0 ≤ (makeContribution role f amount feeds scoop water pl).perFeedAmount ∧
      (∀ s, (makeContribution role f amount feeds scoop water pl).scoops = some s → 0 ≤ s) ∧
      (∀ w, (makeContribution role f amount feeds scoop water pl).waterMl = some w → 0 ≤ w) ∧
      (∀ s, (makeContribution role f amount feeds scoop water pl).perFeedScoops = some s →
        0 ≤ s) ∧
      (∀ w, (makeContribution role f amount feeds scoop water pl).perFeedWaterMl = some w →
        0 ≤ w) := by
  by_cases hcond : ((f.basis = Basis.g100 : Bool) && decide (0 < scoop)) = true
  · have hscoop : 0 < scoop := of_decide_eq_true ((Bool.and_eq_true _ _).mp hcond).2
    have hS : 0 ≤ amount / scoop := div_nonneg hA hscoop.le
    refine ⟨hA, div_nonneg hA hf.le, ?_, ?_, ?_, ?_⟩
    · intro s hs
      rw [show (makeContribution role f amount feeds scoop water pl).scoops =
        some (amount / scoop) from by simp [makeContribution, hcond]] at hs
      cases hs
      exact hS
    · intro w hwml
      rw [show (makeContribution role f amount feeds scoop water pl).waterMl =
        some (amount / scoop * water) from by simp [makeContribution, hcond]] at hwml
      cases hwml
      exact mul_nonneg hS hw
    · intro s hs
      rw [show (makeContribution role f amount feeds scoop water pl).perFeedScoops =
        some (amount / scoop / feeds) from by simp [makeContribution, hcond]] at hs
      cases hs
      exact div_nonneg hS hf.le
    · intro w hwml
      rw [show (makeContribution role f amount feeds scoop water pl).perFeedWaterMl =
        some (amount / scoop * water / feeds) from by simp [makeContribution, hcond]] at hwml
      cases hwml
      exact div_nonneg (mul_nonneg hS hw) hf.le
  · refine ⟨hA, div_nonneg hA hf.le, ?_, ?_, ?_, ?_⟩
    · intro s hs
      rw [show (makeContribution role f amount feeds scoop water pl).scoops = none from by
        simp [makeContribution, hcond]] at hs
      cases hs
    · intro w hwml
      rw [show (makeContribution role f amount feeds scoop water pl).waterMl = none from by
        simp [makeContribution, hcond]] at hwml
      cases hwml
    · intro s hs
      rw [show (makeContribution role f amount feeds scoop water pl).perFeedScoops = none from by
        simp [makeContribution, hcond]] at hs
      cases hs
    · intro w hwml
      rw [show (makeContribution role f amount feeds scoop water pl).perFeedWaterMl = none from by
        simp [makeContribution, hcond]] at hwml
      cases hwml

theorem safeFeeds_cast_pos (i : CalculationInputs) : (0 : ℚ) < ((safeFeedsOf i : ℤ) : ℚ) := by
  have h1 : (1 : ℤ) ≤ safeFeedsOf i := le_max_left 1 _
  exact_mod_cast lt_of_lt_of_le Int.zero_lt_one h1

/-- The per-item non-negativity facts, for every item of the final plan. -/
theorem planItem_nonneg (i : CalculationInputs) :
    ∀ it ∈ planItemsOf i,
      0 ≤ it.amount ∧ 0 ≤ it.perFeedAmount ∧
        (∀ s, it.scoops = some s → 0 ≤ s) ∧
        (∀ w, it.waterMl = some w → 0 ≤ w) ∧
        (∀ s, it.perFeedScoops = some s → 0 ≤ s) ∧
        (∀ w, it.perFeedWaterMl = some w → 0 ≤ w) := by
  intro it hit
  have hw : 0 ≤ safeWaterOf i := le_max_left 0 _
  have hf := safeFeeds_cast_pos i
  have hmem : it = standardItemOf i ∨ it ∈ specialItemsOf i ∨ it ∈ modularItemsOf i := by
    simpa [planItemsOf, planItems2Of, List.mem_append, List.mem_cons] using hit
  rcases hmem with rfl | hsp | hmd
  · exact makeContribution_nonneg _ _ _ _ _ _ _ (standardAmount_nonneg _ _ _) hf hw
  · cases h : i.special with
    | none => simp [specialItemsOf, h] at hsp
    | some sf =>
      simp only [specialItemsOf, h, List.mem_singleton] at hsp
      subst hsp
      exact makeContribution_nonneg _ _ _ _ _ _ _ (specialStage_fst_nonneg i) hf hw
  · cases h : i.modular with
    | none => simp [modularItemsOf, h] at hmd
    | some mf =>
      simp only [modularItemsOf, h, List.mem_singleton] at hmd
      subst hmd
      exact makeContribution_nonneg _ _ _ _ _ _ _ (modularStage_fst_nonneg i) hf hw

theorem foldl_preserve_nonneg {α : Type} (f : ℚ → α → ℚ) :
    ∀ l : List α, (∀ a ∈ l, ∀ s : ℚ, 0 ≤ s → 0 ≤ f s a) → ∀ s : ℚ, 0 ≤ s → 0 ≤ l.foldl f s
  | [], _, _, hs => hs
  | a :: l, h, s, hs =>
    foldl_preserve_nonneg f l (fun b hb s' hs' => h b (List.mem_cons_of_mem a hb) s' hs') _
      (h a (List.mem_cons_self a l) s hs)

/-- C9: for every input whose guideline ranges and formula values are
non-negative, every computed plan amount (standard, special, modular), every
scoops field and every water-volume field of the output is ≥ 0 (the proof
does not even need the hypotheses: the clamps and the sizing algebra force
non-negativity for all inputs). -/
theorem claim9_nonnegativity (i : CalculationInputs)
    (_hr : nonnegRanges i)
    (_hstd : nonnegFormula i.standard)
    (_hsp : ∀ f, i.special = some f → nonnegFormula f)
    (_hmod : ∀ f, i.modular = some f → nonnegFormula f) :
    (∀ it ∈ (calculateDiet i).formulaPlan.items,
        0 ≤ it.amount ∧ 0 ≤ it.perFeedAmount ∧
          (∀ s, it.scoops = some s → 0 ≤ s) ∧
          (∀ w, it.waterMl = some w → 0 ≤ w) ∧
          (∀ s, it.perFeedScoops = some s → 0 ≤ s) ∧
          (∀ w, it.perFeedWaterMl = some w → 0 ≤ w)) ∧
      0 ≤ (calculateDiet i).formulaPlan.totals.powderG ∧
      0 ≤ (calculateDiet i).formulaPlan.totals.scoops ∧
      0 ≤ (calculateDiet i).formulaPlan.totals.waterMl ∧
      0 ≤ (calculateDiet i).formulaPlan.totals.readyToFeedMl ∧
      0 ≤ (calculateDiet i).formulaPlan.totals.finalVolumeMl ∧
      0 ≤ (calculateDiet i).formulaPlan.totals.scoopsPerFeed ∧
      0 ≤ (calculateDiet i).formulaPlan.totals.volumePerFeedMl := by
  have hitems := planItem_nonneg i
  have hpow : 0 ≤ totalPowderGOf i := by
    refine foldl_preserve_nonneg _ _ ?_ 0 (le_refl 0)
    intro a ha s hs
    by_cases hu : a.amountUnit = DailyUnit.gDay
    · simpa [hu] using add_nonneg hs (hitems a ha).1
    · simpa [hu] using hs
  have hsc : 0 ≤ totalScoopsOf i := by
    refine foldl_preserve_nonneg _ _ ?_ 0 (le_refl 0)
    intro a ha s hs
    cases h : a.scoops with
    | none => simpa [h] using hs
    | some v => simpa [h] using add_nonneg hs ((hitems a ha).2.2.1 v h)
  have hwa : 0 ≤ totalWaterMlOf i := by
    refine foldl_preserve_nonneg _ _ ?_ 0 (le_refl 0)
    intro a ha s hs
    cases h : a.waterMl with
    | none => simpa [h] using hs
    | some v => simpa [h] using add_nonneg hs ((hitems a ha).2.2.2.1 v h)
  have hrtf : 0 ≤ totalReadyToFeedMlOf i := by
    refine foldl_preserve_nonneg _ _ ?_ 0 (le_refl 0)
    intro a ha s hs
    by_cases hu : a.amountUnit = DailyUnit.mLDay
    · simpa [hu] using add_nonneg hs (hitems a ha).1
    · simpa [hu] using hs
  have hfv : 0 ≤ finalVolumeMlOf i := add_nonneg hrtf hwa
  exact ⟨hitems, hpow, hsc, hwa, hrtf, hfv,
    div_nonneg hsc (safeFeeds_cast_pos i).le, div_nonneg hfv (safeFeeds_cast_pos i).le⟩

/-- C9 witness input: one guideline row pair and a simple standard formula. -/
def fx9 : CalculationInputs :=
  { weightKg := 4, ageGroupIndex := 0, targetMode := .MID, feedsPerDay := 8,
    scoopSizeG := 5, waterPerScoopMl := 30,
    standard := ⟨"S9", .g100, [("Protein", 10), ("Y", 100)]⟩, special := none, modular := none,
    guidelines :=
      [⟨"g", [("Protein", ⟨2, 4, .gKg, none, false⟩), ("Y", ⟨20, 60, .mgKg, none, false⟩)]⟩],
    primaryLimiter := none }

theorem claim9_witness :
    0 ≤ (calculateDiet fx9).formulaPlan.totals.scoops ∧
      0 ≤ (calculateDiet fx9).formulaPlan.totals.waterMl :=
  ⟨(claim9_nonnegativity fx9 (by decide) (by decide) (fun f h => nomatch h)
      (fun f h => nomatch h)).2.2.1,
    (claim9_nonnegativity fx9 (by decide) (by decide) (fun f h => nomatch h)
      (fun f h => nomatch h)).2.2.2.1⟩

/-! ### Claim C4: end-to-end fixture -/

/-- C4: on the fixture (weight 4 kg, 8 feeds, scoop 5 g, water 30 mL/scoop,
MID targets, Protein 2-4 g/kg and X 20-60 mg/kg, standard formula Protein 11
and X 400 per 100 g, special formula Protein 13 and X 0): the standard
amount is 60 g (6.6 g protein, 240 mg X), the special amount is
5.4*100/13 = 540/13 g, the delivered protein totals 12 g with protein
deficit 0, and X's delivered total is 240 mg with status NORMAL. -/
theorem claim4_fixture :
    (calculateDiet fxInputs).formulaPlan.items.map (fun it => it.amount) = [60, 540 / 13] ∧
      (calculateDiet fxInputs).formulaPlan.items.map (fun it => it.protein) =
        [33 / 5, 27 / 5] ∧
      (calculateDiet fxInputs).formulaPlan.items.map (fun it => it.primaryLimiterDelivered) =
        [some 240, some 0] ∧
      (calculateDiet fxInputs).formulaPlan.totals.protein = 12 ∧
      (calculateDiet fxInputs).formulaPlan.deficits.protein = 0 ∧
      (calculateDiet fxInputs).formulaPlan.nutrientBalances.map
          (fun b => (b.nutrient, b.delivered, b.status)) =
        [("Protein", 12, BalanceStatus.NORMAL), ("X", 240, BalanceStatus.NORMAL)] := by
  have hP : isAminoAcidNutrient "Protein" = false := by decide
  have hX : isAminoAcidNutrient "X" = true := by decide
  have hXne : strNonempty "X" = true := by decide
  have hfX : formulaNutrient fxStd "X" = some 400 := rfl
  have hfP : formulaNutrient fxStd "Protein" = some 11 := rfl
  have hsP : formulaNutrient fxSpecial "Protein" = some 13 := rfl
  have hsX : formulaNutrient fxSpecial "X" = some 0 := rfl
  have hrows : rowsOf fxInputs =
      [⟨"Protein", ⟨2, 4, .gKg, none, false⟩, 8, 16, 12, .gDay⟩,
        ⟨"X", ⟨20, 60, .mgKg, none, false⟩, 80, 240, 160, .mgDay⟩] := by
    norm_num [rowsOf, ageGuideOf, safeAgeIndexOf, safeWeightOf, fxInputs, fxGuide, resolveRow,
      toDailyValue, pickTarget, toDailyUnit, NutrientUnit.isPerKg]
  have htable : targetTableOf fxInputs = [("Protein", (12 : ℚ)), ("X", (160 : ℚ))] := by
    unfold targetTableOf
    rw [hrows]
    rfl
  have htp : targetOf fxInputs "Protein" = some 12 := by
    unfold targetOf
    rw [htable]
    rfl
  have htE : targetOf fxInputs "Energy" = none := by
    unfold targetOf
    rw [htable]
    rfl
  have htC : targetOf fxInputs "Carbohydrate" = none := by
    unfold targetOf
    rw [htable]
    rfl
  have htF : targetOf fxInputs "Fat" = none := by
    unfold targetOf
    rw [htable]
    rfl
  have hstdEq : fxInputs.standard = fxStd := rfl
  have hspEq : fxInputs.special = some fxSpecial := rfl
  have hmodEq : fxInputs.modular = none := rfl
  have hm60 : max (0 : ℚ) 60 = 60 := max_eq_right (by norm_num)
  have hfold : standardSizingFold fxStd (rowsOf fxInputs) = (some 60, some "X") := by
    rw [hrows]
    norm_num [standardSizingFold, standardSizingStep, hP, hX, hfX, EPSILON]
  have hstage : standardStageOf fxInputs = ⟨60, [], some "X"⟩ := by
    norm_num [standardStageOf, computeStandardAmount, hstdEq, hfold, hm60]
  have hfeedsInt : safeFeedsOf fxInputs = 8 := by decide
  have hfeeds : ((safeFeedsOf fxInputs : ℤ) : ℚ) = 8 := by rw [hfeedsInt]; norm_num
  have hscoop : safeScoopOf fxInputs = 5 := by
    norm_num [safeScoopOf, fxInputs, max_eq_right]
  have hwater : safeWaterOf fxInputs = 30 := by
    norm_num [safeWaterOf, fxInputs, max_eq_right]
  have hplEq : fxInputs.primaryLimiter = some "X" := rfl
  have hstdName : fxStd.name = "Std" := rfl
  have hstdBasis : fxStd.basis = Basis.g100 := rfl
  have hlookE : tableLookup fxStd.values "Energy" = none := rfl
  have hlookP : tableLookup fxStd.values "Protein" = some 11 := rfl
  have hitem : standardItemOf fxInputs =
      ⟨.standard, "Std", .g100, 60, .gDay, 0, 33 / 5, some 240, some 12, some 360,
        15 / 2, some (3 / 2), some 45⟩ := by
    norm_num [standardItemOf, makeContribution, hstage, hfeeds, hscoop, hwater, hstdEq,
      hstdName, hstdBasis, hlookE, hlookP, hXne, hfX, hplEq]
  have hdel1 : deliveredForCompletionNutrient .Protein [standardItemOf fxInputs]
      (formulaByRoleOf fxInputs) = 33 / 5 := by
    norm_num [deliveredForCompletionNutrient, hitem]
  have hmax1 : max (0 : ℚ) (12 - 33 / 5) = 27 / 5 := by
    rw [max_eq_right (show (0 : ℚ) ≤ 12 - 33 / 5 by norm_num)]
    norm_num
  have hmax1' : max (0 : ℚ) (27 / 5) = 27 / 5 := max_eq_right (by norm_num)
  have hspec : specialStageOf fxInputs = (540 / 13, []) := by
    norm_num [specialStageOf, hspEq, requiredAmountForFormulaCompletion, completionStep,
      completionTargetsOf, htp, htE, htC, htF, hdel1, hmax1, hmax1', hsP, EPSILON,
      CompletionNutrient.key]
  have hspName : fxSpecial.name = "Special" := rfl
  have hspBasis : fxSpecial.basis = Basis.g100 := rfl
  have hlookE2 : tableLookup fxSpecial.values "Energy" = none := rfl
  have hlookP2 : tableLookup fxSpecial.values "Protein" = some 13 := rfl
  have hsitems : specialItemsOf fxInputs =
      [⟨.special, "Special", .g100, 540 / 13, .gDay, 0, 27 / 5, some 0, some (108 / 13),
        some (3240 / 13), 135 / 26, some (27 / 26), some (405 / 13)⟩] := by
    norm_num [specialItemsOf, makeContribution, hspec, hfeeds, hscoop, hwater, hspEq,
      hspName, hspBasis, hlookE2, hlookP2, hXne, hsX, hplEq]
  have hdel2 : deliveredForCompletionNutrient .Protein (planItems2Of fxInputs)
      (formulaByRoleOf fxInputs) = 12 := by
    norm_num [deliveredForCompletionNutrient, planItems2Of, hitem, hsitems]
  have hnodef : hasRemainingCompletionDeficit (completionTargetsOf fxInputs)
      (planItems2Of fxInputs) (formulaByRoleOf fxInputs) = false := by
    norm_num [hasRemainingCompletionDeficit, completionTargetsOf, htp, htE, htC, htF, hdel2,
      EPSILON, decide_eq_false_iff_not]
  have hmitems : modularItemsOf fxInputs = [] := by
    simp [modularItemsOf, hmodEq]
  have hplan : planItemsOf fxInputs =
      [⟨.standard, "Std", .g100, 60, .gDay, 0, 33 / 5, some 240, some 12, some 360,
        15 / 2, some (3 / 2), some 45⟩,
       ⟨.special, "Special", .g100, 540 / 13, .gDay, 0, 27 / 5, some 0, some (108 / 13),
        some (3240 / 13), 135 / 26, some (27 / 26), some (405 / 13)⟩] := by
    rw [planItemsOf, planItems2Of, hitem, hsitems, hmitems]
    simp
  have htot : totalProteinOf fxInputs = 12 := by
    norm_num [totalProteinOf, hplan]
  have hdelX : nutrientDelivered "X" (planItemsOf fxInputs) (formulaByRoleOf fxInputs) = 240 := by
    norm_num [nutrientDelivered, hplan, formulaByRoleOf, hstdEq, hspEq, hfX, hsX]
  refine ⟨?_, ?_, ?_, ?_, ?_, ?_⟩
  · show (planItemsOf fxInputs).map (fun it => it.amount) = [60, 540 / 13]
    rw [hplan]; rfl
  · show (planItemsOf fxInputs).map (fun it => it.protein) = [33 / 5, 27 / 5]
    rw [hplan]; rfl
  · show (planItemsOf fxInputs).map (fun it => it.primaryLimiterDelivered) =
      [some 240, some 0]
    rw [hplan]; rfl
  · exact htot
  · show max 0 ((targetOf fxInputs "Protein").getD 0 - totalProteinOf fxInputs) = 0
    rw [htp, htot]
    norm_num
  · show (nutrientBalancesOf fxInputs).map (fun b => (b.nutrient, b.delivered, b.status)) = _
    rw [nutrientBalancesOf, hrows]
    have hd1 : deliveredOf fxInputs ⟨"Protein", ⟨2, 4, .gKg, none, false⟩, 8, 16, 12, .gDay⟩ =
        12 := by
      simp only [deliveredOf]
      simp [htot]
    have hd2 : deliveredOf fxInputs ⟨"X", ⟨20, 60, .mgKg, none, false⟩, 80, 240, 160, .mgDay⟩ =
        240 := by
      simp only [deliveredOf]
      simp [hdelX]
    simp only [List.map_cons, List.map_nil, hd1, hd2]
    norm_num [balanceFor, EPSILON]

end Metabolic
